import Mathlib

/-
Verification development for the dl-benchmark PyTorch inference engine
(src/inference/inference_pytorch.py) and the TensorFlow configuration
parameter validator (src/benchmark/frameworks/tensorflow/
tensorflow_parameters_parser.py).

The engine manipulates tensors, tokenizers and models that are opaque to the
control flow under verification, so those data are embedded symbolically: a
`Val` term records exactly which collaborator calls and tensor operations
built a value, and an `Event` trace records, in order, the observable actions
of a run (data slicing, clock reads, inference invocations, device
synchronization).  The token-counting routine, thread-count validation, the
benchmark loop bounds and the configuration validator are arithmetic /
list-level code and are embedded concretely.
-/

namespace DLBench

/-- Symbolic values flowing through the inference engine.  `slice k` is the
result of the k-th `get_slice()` call of a run; `call f pos kw` is the value
returned by calling `f` with positional arguments `pos` and keyword arguments
`kw`; `extV name` is an externally defined collaborator (function, constant or
object) referenced by name; `boundV f kw` is `functools.partial(f, **kw)`;
`methodV obj name` is the bound method `obj.name`; `meaningTokens grid n`
stands for the list returned by `get_meaning_tokens_from_batch(grid, n)`. -/
inductive Val where
  | noneV : Val
  | modelV : Val
  | intV : Int → Val
  | strV : String → Val
  | slice : Nat → Val
  | listV : List Val → Val
  | pairV : Val → Val → Val
  | dictV : List (String × Val) → Val
  | field : Val → String → Val
  | tensor : Val → String → Val
  | toDevice : Val → String → Val
  | softmax : Val → Nat → Val
  | index : Val → Nat → Val
  | call : Val → List Val → List (String × Val) → Val
  | extV : String → Val
  | methodV : Val → String → Val
  | boundV : Val → List (String × Val) → Val
  | lenV : Val → Val
  | sizeDim : Val → Nat → Val
  | meaningTokens : Val → Val → Val

/-- Python truthiness for the values the engine tests with `if x:` (only
`None`, numbers, strings and lists are ever tested; tokenizer/processor
objects are always truthy). -/
def Val.truthy : Val → Bool
  | Val.noneV => false
  | Val.intV n => decide (n ≠ 0)
  | Val.strV s => decide (s ≠ "")
  | Val.listV vs => !vs.isEmpty
  | _ => true

/-- Runtime errors that the embedded engine can raise.  `typeError` is the
TypeError Python raises for `f(*None)` (positional unpacking of `None`). -/
inductive PyErr where
  | typeError : PyErr
  deriving Repr, DecidableEq

/-- Observable actions of a run, in program order. -/
inductive Event where
  | getSlice : Nat → Event
  | timeRead : Nat → Event
  | infer : Val → List Val → List (String × Val) → Event
  | cudaSync : Event

/-- True exactly on inference-invocation events. -/
def is_infer_event : Event → Bool
  | Event.infer _ _ _ => true
  | _ => false

/-- Number of inference invocations recorded in a trace. -/
def countInfer (es : List Event) : Nat := (es.filter is_infer_event).length

/-! ## Token counting (inference_pytorch.py, get_meaning_tokens_from_batch) -/

/-- Inner loop of `get_meaning_tokens_from_batch`: `length` starts at 1 (the
trailing dot) and is incremented for every entry of the row that differs from
the filler token. -/
def row_length (row : List Int) (dot_token : Int) : Int :=
  row.foldl (fun length t => if t != dot_token then length + 1 else length) 1

/-- Embedding of `get_meaning_tokens_from_batch(generated_output, input_size,
dot_token)`: for each batch row, append `row_length - input_size`. -/
def get_meaning_tokens_from_batch (generated_output : List (List Int))
    (input_size : Int) (dot_token : Int) : List Int :=
  generated_output.map (fun row => row_length row dot_token - input_size)

/-! ## Thread-count validation (inference_pytorch.py, set_thread_num) -/

/-- A torch thread setting applied by `set_thread_num`. -/
inductive ThreadSetting where
  | interop : Int → ThreadSetting
  | intraop : Int → ThreadSetting
  deriving Repr, DecidableEq

/-- Embedding of `set_thread_num(num_inter_threads, num_intra_threads)`.
Returns the torch settings applied, in order, and the error raised (if any);
settings applied before the error persist, none are applied after it.  A
parameter is processed only when truthy (not `None` and nonzero), validated
(`num < 0` raises), then applied. -/
def set_thread_num (num_inter_threads num_intra_threads : Option Int) :
    List ThreadSetting × Option String :=
  let intraStep (applied : List ThreadSetting) : List ThreadSetting × Option String :=
    match num_intra_threads with
    | some n =>
        if n ≠ 0 then
          if n < 0 then (applied, some ("Incorrect thread count: " ++ toString n))
          else (applied ++ [ThreadSetting.intraop n], none)
        else (applied, none)
    | none => (applied, none)
  match num_inter_threads with
  | some n =>
      if n ≠ 0 then
        if n < 0 then ([], some ("Incorrect thread count: " ++ toString n))
        else intraStep [ThreadSetting.interop n]
      else intraStep []
  | none => intraStep []

/-! ## Benchmark loop (inference_tools/loop_tools.py, not under src/) -/

/-- Modelled from the spec: the body of the `loop_inference` decorator lives in
`inference_tools/loop_tools.py`, which is not among the provided sources.
Per spec sections 4.3 and 8: an iteration always runs first, then the loop
stops when the configured iteration count has been reached (only when that
count is nonzero — a zero count means "run until deadline") or, when the
configured duration is nonzero, when the elapsed time has reached the
deadline — whichever comes first; the deadline is only checked between
iterations.  `iterTime i` is the (abstract) duration of iteration `i` in
clock ticks; since wall-clock time strictly advances across an iteration,
an iteration is modelled as consuming at least one tick, so a
deadline-bounded run always terminates.  The returned list holds one latency
sample per executed iteration. -/
def loop_go (iterTime : Nat → Nat) (duration num_iterations : Nat) :
    Nat → Nat → Nat → List Nat
  | 0, _, _ => []
  | fuel + 1, i, now =>
      iterTime i ::
        (if num_iterations ≠ 0 ∧ num_iterations ≤ i + 1 then []
         else if duration ≠ 0 ∧ duration ≤ now + max (iterTime i) 1 then []
         else loop_go iterTime duration num_iterations fuel (i + 1)
                (now + max (iterTime i) 1))

/-- Modelled from the spec: entry point of the benchmark loop with iteration
budget `num_iterations` (0 meaning run until the deadline) and wall-clock
budget `test_duration` (0 meaning no time bound), starting the clock at 0.
The fuel `num_iterations + test_duration + 1` never truncates a bounded run:
a nonzero iteration budget stops the loop after at most that many iterations,
and a zero budget with a nonzero duration stops within `test_duration` ticks
because each iteration consumes at least one tick.  The doubly degenerate
configuration (budget 0 and no time bound), which the spec leaves unbounded,
is cut after its guaranteed first iteration. -/
def loop_inference (num_iterations test_duration : Nat) (iterTime : Nat → Nat) :
    List Nat :=
  loop_go iterTime test_duration num_iterations
    (num_iterations + test_duration + 1) 0 0

/-! ## Invocation (inference_pytorch.py, infer_slice / inference_iteration) -/

/-- Synchronization events surrounding a device-resident call. -/
def syncEvents (device : String) : List Event :=
  if device = "cuda" then [Event.cudaSync] else []

/-- Positional unpacking `f(*inputs)`: a Python list unpacks to its elements
and `None` raises TypeError.  Only lists and `None` ever reach the positional
path of `infer_slice`. -/
def star_unpack : Val → Except PyErr (List Val)
  | Val.listV vs => Except.ok vs
  | _ => Except.error PyErr.typeError

/-- Embedding of `infer_slice(device, inputs, model, input_kwarg_name,
task_type, tokenizer)` (without the external `get_exec_time` timing
decorator): pick `model.translate_batch` for text-translation, call with a
single keyword argument when `input_kwarg_name` is set (adding
`tokenizer=...` when a tokenizer is available and the task is not
named-entity-recognition), otherwise positionally unpack `inputs`; synchronize
after the call on cuda. -/
def infer_slice (device : String) (inputs model : Val)
    (input_kwarg_name : Option String) (task_type : String) (tokenizer : Val) :
    Except PyErr Val × List Event :=
  let infer_func :=
    if task_type ∈ ["text-translation"] then Val.methodV model "translate_batch"
    else model
  match input_kwarg_name with
  | some kwarg =>
      let params :=
        if tokenizer.truthy = true ∧ task_type ∉ ["named-entity-recognition"] then
          [(kwarg, inputs), ("tokenizer", tokenizer)]
        else [(kwarg, inputs)]
      (Except.ok (Val.call infer_func [] params),
       [Event.infer infer_func [] params] ++ syncEvents device)
  | none =>
      match star_unpack inputs with
      | Except.error e => (Except.error e, [])
      | Except.ok args =>
          (Except.ok (Val.call infer_func args []),
           [Event.infer infer_func args []] ++ syncEvents device)

/-- Per-iteration state derived by the dispatch chain of
`inference_iteration` before the call: the inputs, the optional keyword name
under which they are passed, the (possibly rebound) callable, audio metadata,
the slicing events performed and the next slice index. -/
structure DispatchState where
  inputs : Val
  input_kwarg_name : Option String
  model : Val
  audio_length : Val
  audio_sampling_rate : Val
  events : List Event
  k : Nat

/-- The dictionary returned by one call of `inference_iteration` (its
`exec_time` entry is produced by the external `get_exec_time` decorator and is
not modelled). -/
structure IterationResult where
  iter_tokens : Val
  audio_length : Val
  audio_sampling_rate : Val

/-- Inputs for the positional tensor tasks: one
`torch.tensor(get_slice()[name], device=device)` per declared input name,
together with the slicing events and the next slice index. -/
def build_positional_inputs (input_names : List String) (device : String)
    (k0 : Nat) : List Val × List Event × Nat :=
  match input_names with
  | [] => ([], [], k0)
  | n :: rest =>
      let r := build_positional_inputs rest device (k0 + 1)
      (Val.tensor (Val.field (Val.slice k0) n) device :: r.1,
       Event.getSlice k0 :: r.2.1, r.2.2)

/-- Embedding of `inference_iteration(device, get_slice, input_names, model,
task_type, tokenizer, processor, input_size)`: the generation tasks first
tokenize a fresh slice, then the dispatch chain builds inputs / keyword name /
(possibly partially-applied) callable per task type, cuda synchronizes, calls
`infer_slice`, and derives the per-iteration token count.  A task type matched
by no branch leaves `inputs = None` and no keyword name, so the call fails
with a TypeError at invocation.  Returns the result (or error), the event
trace and the next slice index. -/
def inference_iteration (device : String) (input_names : List String)
    (task_type : String) (tokenizer processor input_size : Val) (k0 : Nat) :
    Except PyErr IterationResult × List Event × Nat :=
  let gen0 :=
    if task_type ∈ ["text-generation", "batch-text-generation"] then
      (Val.call (Val.extV "causal_lm_base.tokenize") [tokenizer, Val.slice k0] [],
       [Event.getSlice k0], k0 + 1)
    else (Val.noneV, ([] : List Event), k0)
  let inputs0 := gen0.1
  let es0 := gen0.2.1
  let k1 := gen0.2.2
  let st : DispatchState :=
    if task_type ∈ ["classification", "feedforward"] then
      { inputs := Val.listV (build_positional_inputs input_names device k1).1,
        input_kwarg_name := none, model := Val.modelV,
        audio_length := Val.noneV, audio_sampling_rate := Val.noneV,
        events := (build_positional_inputs input_names device k1).2.1,
        k := (build_positional_inputs input_names device k1).2.2 }
    else if task_type ∈ ["named-entity-recognition"] then
      { inputs := Val.toDevice (Val.field
          (Val.call (Val.extV "bert_base_ner.tokenize") [tokenizer, Val.slice k1] [])
          "input_ids") device,
        input_kwarg_name := some "input_ids", model := Val.modelV,
        audio_length := Val.noneV, audio_sampling_rate := Val.noneV,
        events := [Event.getSlice k1], k := k1 + 1 }
    else if task_type ∈ ["text-generation"] then
      { inputs := inputs0, input_kwarg_name := some "inputs",
        model := Val.boundV (Val.extV "causal_lm_base.generate")
          [("model", Val.modelV), ("device", Val.strV device)],
        audio_length := Val.noneV, audio_sampling_rate := Val.noneV,
        events := [], k := k1 }
    else if task_type ∈ ["speech-to-text"] then
      { inputs := Val.call (Val.extV "speech_to_sequence_base.process_audio")
          [processor, Val.index (Val.slice k1) 0, Val.index (Val.slice k1) 1] [],
        input_kwarg_name := some "inputs",
        model := Val.boundV (Val.extV "speech_to_sequence_base.generate")
          [("model", Val.modelV), ("device", Val.strV device), ("processor", processor)],
        audio_length := Val.index (Val.slice k1) 2,
        audio_sampling_rate := Val.field processor "feature_extractor.sampling_rate",
        events := [Event.getSlice k1], k := k1 + 1 }
    else if task_type ∈ ["batch-text-generation"] then
      { inputs := inputs0, input_kwarg_name := some "encodings_dict",
        model := Val.boundV (Val.extV "gpt_2.batch_text_generation")
          [("torch_model", Val.modelV), ("tokenizer", tokenizer), ("device", Val.strV device)],
        audio_length := Val.noneV, audio_sampling_rate := Val.noneV,
        events := [], k := k1 }
    else if task_type ∈ ["text-to-image"] then
      { inputs := Val.slice k1, input_kwarg_name := some "prompt", model := Val.modelV,
        audio_length := Val.noneV, audio_sampling_rate := Val.noneV,
        events := [Event.getSlice k1], k := k1 + 1 }
    else if task_type ∈ ["text-translation"] then
      { inputs := Val.slice k1, input_kwarg_name := some "txt", model := Val.modelV,
        audio_length := Val.noneV, audio_sampling_rate := Val.noneV,
        events := [Event.getSlice k1], k := k1 + 1 }
    else
      { inputs := inputs0, input_kwarg_name := none, model := Val.modelV,
        audio_length := Val.noneV, audio_sampling_rate := Val.noneV,
        events := [], k := k1 }
  let r := infer_slice device st.inputs st.model st.input_kwarg_name task_type tokenizer
  match r.1 with
  | Except.error e => (Except.error e, es0 ++ st.events ++ syncEvents device ++ r.2, st.k)
  | Except.ok res =>
      let iter_tokens0 :=
        if task_type ∈ ["text-generation", "speech-to-text"] then
          Val.meaningTokens res input_size
        else Val.noneV
      let iter_tokens1 :=
        if task_type ∈ ["named-entity-recognition"] then
          Val.lenV (Val.index
            (Val.call (Val.extV "bert_base_ner.decode") [tokenizer, st.inputs, res] []) 0)
        else iter_tokens0
      (Except.ok { iter_tokens := iter_tokens1, audio_length := st.audio_length,
                   audio_sampling_rate := st.audio_sampling_rate },
       es0 ++ st.events ++ syncEvents device ++ r.2, st.k)

/-! ## Single-shot path (inference_pytorch.py, inference_pytorch with
num_iterations == 1, including the pre-loop setup of lines 402-430).  The
looped branch of `inference_pytorch` delegates to the external
`loop_inference` decorator over `inference_iteration` and is covered by the
two embeddings above. -/

/-- Tokenizer built in the setup phase for the causal-LM tasks:
`create_tokenizer(model.name_or_path)`. -/
def lm_tokenizer : Val :=
  Val.call (Val.extV "causal_lm_base.create_tokenizer")
    [Val.field Val.modelV "name_or_path"] []

/-- Encodings dict built in the setup phase for the causal-LM tasks:
`tokenize(tokenizer, get_slice())` on slice 0. -/
def lm_encodings : Val :=
  Val.call (Val.extV "causal_lm_base.tokenize") [lm_tokenizer, Val.slice 0] []

/-- Tokenizer built in the setup phase for named-entity-recognition. -/
def ner_tokenizer : Val :=
  Val.call (Val.extV "bert_base_ner.create_tokenizer") [] []

/-- Processor built in the setup phase for speech-to-text:
`create_processor(model)`. -/
def s2t_processor : Val :=
  Val.call (Val.extV "speech_to_sequence_base.create_processor") [Val.modelV] []

/-- Audio features built in the setup phase for speech-to-text:
`process_audio(processor, waveform, sampling_rate)` on slice 0. -/
def s2t_encodings : Val :=
  Val.call (Val.extV "speech_to_sequence_base.process_audio")
    [s2t_processor, Val.index (Val.slice 0) 0, Val.index (Val.slice 0) 1] []

/-- Keyword arguments of the single-shot text-generation call
`generate(model=model, inputs=encodings_dict, device=device,
tokenizer=tokenizer)`. -/
def lm_generate_kwargs (device : String) : List (String × Val) :=
  [("model", Val.modelV), ("inputs", lm_encodings),
   ("device", Val.strV device), ("tokenizer", lm_tokenizer)]

/-- Single-shot text-generation model output. -/
def lm_generated (device : String) : Val :=
  Val.call (Val.extV "causal_lm_base.generate") [] (lm_generate_kwargs device)

/-- Keyword arguments of the single-shot batch-text-generation call. -/
def btg_kwargs (device : String) : List (String × Val) :=
  [("torch_model", Val.modelV), ("tokenizer", lm_tokenizer),
   ("device", Val.strV device), ("encodings_dict", lm_encodings)]

/-- Single-shot batch-text-generation model output. -/
def btg_output (device : String) : Val :=
  Val.call (Val.extV "gpt_2.batch_text_generation") [] (btg_kwargs device)

/-- Keyword arguments of the single-shot speech-to-text call. -/
def s2t_generate_kwargs (device : String) : List (String × Val) :=
  [("model", Val.modelV), ("inputs", s2t_encodings),
   ("device", Val.strV device), ("processor", s2t_processor)]

/-- Single-shot speech-to-text model output. -/
def s2t_generated (device : String) : Val :=
  Val.call (Val.extV "speech_to_sequence_base.generate") [] (s2t_generate_kwargs device)

/-- Tokenized sentence of the single-shot named-entity-recognition branch:
`tokenize(tokenizer, get_slice())["input_ids"].to(device)` on slice `k`. -/
def ner_tokenized (device : String) (k : Nat) : Val :=
  Val.toDevice (Val.field
    (Val.call (Val.extV "bert_base_ner.tokenize") [ner_tokenizer, Val.slice k] [])
    "input_ids") device

/-- Decoded result of the single-shot named-entity-recognition branch:
`decode(tokenizer, tokenized_sentence, model(tokenized_sentence))`. -/
def ner_decoded (device : String) (k : Nat) : Val :=
  Val.call (Val.extV "bert_base_ner.decode")
    [ner_tokenizer, ner_tokenized device k,
     Val.call Val.modelV [ner_tokenized device k] []] []

/-- Pre-loop setup state of `inference_pytorch` (tokenizer / processor /
encodings / prompt length / initial metadata lists) together with the slicing
events performed and the next slice index. -/
structure SetupState where
  tokenizer : Val
  processor : Val
  encodings_dict : Val
  input_size : Val
  num_tokens0 : List Val
  audios_lengths0 : List Val
  audio_sampling_rate : Val
  events : List Event
  k : Nat

/-- Output and metadata produced by the timed single-shot branch. -/
structure BranchState where
  output : Val
  num_tokens : List Val
  events : List Event

/-- The tuple returned by `inference_pytorch`: raw output, latency samples
(as pairs of clock-read indices: `(i, j)` is the difference of the j-th and
the i-th `time()` reading), token counts, audio lengths, audio sampling rate —
plus the event trace of the run. -/
structure RunOutput where
  output : Val
  time_infer : List (Nat × Nat)
  num_tokens : List Val
  audios_lengths : List Val
  audio_sampling_rate : Val
  events : List Event

/-- Embedding of `inference_pytorch` restricted to `num_iterations == 1`: the
pre-loop setup (tokenizer / processor construction, first slice for the
generative and audio tasks), then input construction for the positional
tensor tasks, the first clock read, the per-task single invocation and
decoding, and the second clock read; `time_infer` receives the single sample.
A task type matched by no branch leaves `output = None` and performs no
inference call, raising no error. -/
def inference_pytorch_single (task_type : String) (input_names : List String)
    (device : String) : RunOutput :=
  let s : SetupState :=
    if task_type ∈ ["text-generation", "batch-text-generation"] then
      if task_type ∈ ["text-generation"] then
        { tokenizer := lm_tokenizer, processor := Val.noneV,
          encodings_dict := lm_encodings,
          input_size := Val.sizeDim (Val.field lm_encodings "input_ids") 1,
          num_tokens0 := [], audios_lengths0 := [], audio_sampling_rate := Val.noneV,
          events := [Event.getSlice 0], k := 1 }
      else
        { tokenizer := lm_tokenizer, processor := Val.noneV,
          encodings_dict := lm_encodings, input_size := Val.intV 0,
          num_tokens0 := [Val.extV "gpt_2.MAX_TEXT_LEN"], audios_lengths0 := [],
          audio_sampling_rate := Val.noneV, events := [Event.getSlice 0], k := 1 }
    else if task_type ∈ ["named-entity-recognition"] then
      { tokenizer := ner_tokenizer, processor := Val.noneV,
        encodings_dict := Val.noneV, input_size := Val.intV 0,
        num_tokens0 := [], audios_lengths0 := [], audio_sampling_rate := Val.noneV,
        events := [], k := 0 }
    else if task_type ∈ ["speech-to-text"] then
      { tokenizer := Val.noneV, processor := s2t_processor,
        encodings_dict := s2t_encodings, input_size := Val.intV 0,
        num_tokens0 := [], audios_lengths0 := [Val.index (Val.slice 0) 2],
        audio_sampling_rate := Val.field s2t_processor "feature_extractor.sampling_rate",
        events := [Event.getSlice 0], k := 1 }
    else
      { tokenizer := Val.noneV, processor := Val.noneV, encodings_dict := Val.noneV,
        input_size := Val.intV 0, num_tokens0 := [], audios_lengths0 := [],
        audio_sampling_rate := Val.noneV, events := [], k := 0 }
  let bi :=
    if task_type ∈ ["classification", "feedforward", "yolo_v7"] then
      build_positional_inputs input_names device s.k
    else ([], [], s.k)
  let br : BranchState :=
    if task_type ∈ ["classification", "feedforward"] then
      { output := Val.toDevice (Val.softmax (Val.call Val.modelV bi.1 []) 1) "cpu",
        num_tokens := s.num_tokens0,
        events := [Event.infer Val.modelV bi.1 []] }
    else if task_type ∈ ["text-to-image"] then
      { output := Val.call Val.modelV [] [("prompt", Val.slice bi.2.2)],
        num_tokens := s.num_tokens0,
        events := [Event.getSlice bi.2.2,
                   Event.infer Val.modelV [] [("prompt", Val.slice bi.2.2)]] }
    else if task_type ∈ ["yolo_v7"] then
      { output := Val.toDevice (Val.index (Val.call Val.modelV bi.1 []) 0) "cpu",
        num_tokens := s.num_tokens0,
        events := [Event.infer Val.modelV bi.1 []] }
    else if task_type ∈ ["text-translation"] then
      { output := Val.call (Val.methodV Val.modelV "translate_batch") [Val.slice bi.2.2] [],
        num_tokens := s.num_tokens0,
        events := [Event.getSlice bi.2.2,
                   Event.infer (Val.methodV Val.modelV "translate_batch") [Val.slice bi.2.2] []] }
    else if task_type ∈ ["named-entity-recognition"] then
      { output := Val.pairV (Val.index (ner_decoded device bi.2.2) 0)
                            (Val.index (ner_decoded device bi.2.2) 1),
        num_tokens := s.num_tokens0 ++ [Val.lenV (Val.index (ner_decoded device bi.2.2) 0)],
        events := [Event.getSlice bi.2.2,
                   Event.infer Val.modelV [ner_tokenized device bi.2.2] []] }
    else if task_type ∈ ["text-generation"] then
      { output := Val.call (Val.extV "causal_lm_base.decode") [s.tokenizer, lm_generated device] [],
        num_tokens := s.num_tokens0 ++ [Val.meaningTokens (lm_generated device) s.input_size],
        events := [Event.infer (Val.extV "causal_lm_base.generate") [] (lm_generate_kwargs device)] }
    else if task_type ∈ ["batch-text-generation"] then
      { output := Val.call (Val.extV "gpt_2.decode") [s.tokenizer, btg_output device] [],
        num_tokens := s.num_tokens0,
        events := [Event.infer (Val.extV "gpt_2.batch_text_generation") [] (btg_kwargs device)] }
    else if task_type ∈ ["speech-to-text"] then
      { output := Val.call (Val.extV "speech_to_sequence_base.decode") [s.processor, s2t_generated device] [],
        num_tokens := s.num_tokens0 ++ [Val.meaningTokens (s2t_generated device) s.input_size],
        events := [Event.infer (Val.extV "speech_to_sequence_base.generate") [] (s2t_generate_kwargs device)] }
    else
      { output := Val.noneV, num_tokens := s.num_tokens0, events := [] }
  { output := br.output, time_infer := [(0, 1)], num_tokens := br.num_tokens,
    audios_lengths := s.audios_lengths0, audio_sampling_rate := s.audio_sampling_rate,
    events := s.events ++ bi.2.1 ++ [Event.timeRead 0] ++ br.events ++ [Event.timeRead 1] }

/-- The task strings accepted by the command-line parser (`choices` of the
`--task` argument); every run of the program carries one of these. -/
def cli_task_choices : List String :=
  ["feedforward", "classification", "text-to-image", "named-entity-recognition",
   "yolo_v7", "text-generation", "batch-text-generation", "text-translation",
   "speech-to-text"]

/-! ## Output formatting (inference_pytorch.py, prepare_output) -/

/-- Embedding of `prepare_output(result, output_names, task_type)`: the
output-name list is validated first (`None` or empty raises), then the task
dispatch builds the display structure; an unrecognized task raises. -/
def prepare_output (result : Val) (output_names : Option (List String))
    (task_type : String) : Except String Val :=
  match output_names with
  | none =>
      Except.error "The number of output tensors does not match the number of corresponding output names"
  | some names =>
      if names.length = 0 then
        Except.error "The number of output tensors does not match the number of corresponding output names"
      else if task_type ∈ ["feedforward"] then
        Except.ok (Val.dictV [])
      else if task_type ∈ ["text-generation", "batch-text-generation", "yolo_v7",
                           "text-translation", "speech-to-text"] then
        Except.ok result
      else if task_type ∈ ["named-entity-recognition"] then
        Except.ok (Val.call (Val.extV "bert_base_ner.get_decode_result")
          [Val.index result 0, Val.index result 1] [])
      else if task_type ∈ ["text-to-image"] then
        Except.ok (Val.field result "images")
      else if task_type ∈ ["classification"] then
        Except.ok (Val.dictV [(names.headD "",
          Val.call (Val.methodV (Val.call (Val.methodV result "detach") [] []) "numpy") [] [])])
      else
        Except.error ("Unsupported task " ++ task_type ++ " to print inference results")

/-! ## TensorFlow configuration validator
(tensorflow_parameters_parser.py, TensorFlowParameters)  -/

/-- Modelled from the spec: the validation helpers of the base class
`FrameworkParameters` (`_channel_swap_is_correct`, `_mean_is_correct`,
`_float_value_is_correct`, `_int_value_is_correct`) are defined in
`src/benchmark/frameworks/config_parser/framework_parameters_parser.py`,
which is not among the provided sources; they are kept abstract.  The base
check `_parameter_is_not_none` is modelled as presence of the optional
parameter. -/
structure FrameworkChecks where
  channel_swap_is_correct : String → Bool
  mean_is_correct : String → Bool
  float_value_is_correct : String → Bool
  int_value_is_correct : String → Bool

/-- Python `str.split()` with no separator: split on whitespace runs,
discarding empty pieces. -/
def python_whitespace_split (s : String) : List String :=
  (s.split fun c => c.isWhitespace).filter (fun t => t != "")

/-- Embedding of `TensorFlowParameters._input_shape_is_correct`: the string
must split into exactly 3 whitespace-separated tokens, each passing the
integer-value check. -/
def input_shape_is_correct (int_value_is_correct : String → Bool)
    (input_shape : String) : Bool :=
  let shape_check := python_whitespace_split input_shape
  if shape_check.length ≠ 3 then false
  else shape_check.all int_value_is_correct

/-- Field state of a `TensorFlowParameters` object. -/
structure TensorFlowParameters where
  channel_swap : Option String
  mean : Option String
  input_scale : Option String
  input_shape : Option String
  input_name : Option String
  output_names : Option String
  nthreads : Option String
  num_inter_threads : Option String
  num_intra_threads : Option String
  kmp_affinity : Option String
  use_xla : Option String

/-- The object state at the top of the constructor: every field `None`. -/
def tf_params_empty : TensorFlowParameters :=
  ⟨none, none, none, none, none, none, none, none, none, none, none⟩

/-- One validated assignment of the constructor: skip a missing parameter,
store a valid one, raise `ValueError` (with the given message) otherwise. -/
def validated (x : Option String) (ok : String → Bool) (err : String)
    (set : TensorFlowParameters → String → TensorFlowParameters)
    (p : TensorFlowParameters) : Except String TensorFlowParameters :=
  match x with
  | none => Except.ok p
  | some v => if ok v then Except.ok (set p v) else Except.error err

/-- One unvalidated assignment of the constructor: store the parameter when
present. -/
def unvalidated (x : Option String)
    (set : TensorFlowParameters → String → TensorFlowParameters)
    (p : TensorFlowParameters) : TensorFlowParameters :=
  match x with
  | none => p
  | some v => set p v

/-- Embedding of `TensorFlowParameters.__init__`: the eleven parameters are
processed in source order; a failing validation raises immediately (no object
is produced), otherwise the populated object is returned. -/
def TensorFlowParameters.init (ck : FrameworkChecks)
    (channel_swap mean input_scale input_shape input_name output_names
     thread_count inter_op_parallelism_threads intra_op_parallelism_threads
     kmp_affinity use_xla : Option String) : Except String TensorFlowParameters :=
  (validated channel_swap ck.channel_swap_is_correct
      "Channel swap can only take values: list of unique values 0, 1, 2."
      (fun p v => { p with channel_swap := some v }) tf_params_empty).bind fun p =>
  (validated mean ck.mean_is_correct
      "Mean can only take values: list of 3 float elements."
      (fun p v => { p with mean := some v }) p).bind fun p =>
  (validated input_scale ck.float_value_is_correct
      "Input scale can only take values: float greater than zero."
      (fun p v => { p with input_scale := some v }) p).bind fun p =>
  (validated input_shape (input_shape_is_correct ck.int_value_is_correct)
      "Input shape can only take values: list of 3 integer elements greater than zero."
      (fun p v => { p with input_shape := some v }) p).bind fun p =>
  let p := unvalidated input_name (fun p v => { p with input_name := some v }) p
  let p := unvalidated output_names (fun p v => { p with output_names := some v }) p
  (validated thread_count ck.int_value_is_correct
      "Threads count can only take integer value"
      (fun p v => { p with nthreads := some v }) p).bind fun p =>
  (validated inter_op_parallelism_threads ck.int_value_is_correct
      "Inter op parallelism threads can only take integer value"
      (fun p v => { p with num_inter_threads := some v }) p).bind fun p =>
  (validated intra_op_parallelism_threads ck.int_value_is_correct
      "Intra op parallelism threads can only take integer value"
      (fun p v => { p with num_intra_threads := some v }) p).bind fun p =>
  let p := unvalidated kmp_affinity (fun p v => { p with kmp_affinity := some v }) p
  let p := unvalidated use_xla (fun p v => { p with use_xla := some v }) p
  Except.ok p

/-! ## Theorems -/

/-- Inner loop of the token counter: starting the counter at `a` yields `a`
plus the number of non-filler entries. -/
theorem row_length_foldl (row : List Int) (d : Int) :
    ∀ (a : Int), row.foldl (fun length t => if t != d then length + 1 else length) a
      = a + row.countP (fun t => t != d) := by
  induction row with
  | nil => intro a; simp
  | cons t ts ih =>
      intro a
      by_cases h : (t != d) = true
      · simp only [List.foldl_cons, h, if_true, ih, List.countP_cons]
        push_cast
        ring
      · simp only [List.foldl_cons, h, if_false, ih, List.countP_cons,
          Bool.false_eq_true]
        simp [h]

/-- Each row's natural length is one (the trailing dot) plus its count of
non-filler entries. -/
theorem row_length_eq (row : List Int) (d : Int) :
    row_length row d = 1 + row.countP (fun t => t != d) := by
  simpa [row_length] using row_length_foldl row d 1

/-- C1: `get_meaning_tokens_from_batch` returns exactly one integer per batch
row, in row order, each equal to one (the trailing end token) plus the number
of entries of that row different from the filler token, minus the prompt
length `input_size`; on the grid `[[5,7,2,2,2],[5,7,9,2,2]]` with filler 2 and
prompt length 1 it returns `[2, 3]`. -/
theorem C1_token_counting :
    (∀ (generated_output : List (List Int)) (input_size dot_token : Int),
        get_meaning_tokens_from_batch generated_output input_size dot_token =
          generated_output.map
            (fun row => 1 + (row.countP (fun t => t != dot_token) : Int) - input_size)) ∧
    get_meaning_tokens_from_batch [[5, 7, 2, 2, 2], [5, 7, 9, 2, 2]] 1 2 = [2, 3] := by
  constructor
  · intro g s d
    unfold get_meaning_tokens_from_batch
    induction g with
    | nil => rfl
    | cons row rest ih => simp [ih, row_length_eq]
  · decide

/-- C7 counterexample: it is not true that every entry returned by
`get_meaning_tokens_from_batch` is nonnegative for every grid and prompt
length: on the grid `[[2]]` with prompt length 2 the returned entry is `-1`. -/
theorem C7_counterexample :
    ¬ ∀ (generated_output : List (List Int)) (input_size : Int),
        ∀ x ∈ get_meaning_tokens_from_batch generated_output input_size 2, 0 ≤ x := by
  intro h
  have hx := h [[2]] 2 (-1) (by decide)
  exact absurd hx (by decide)

/-- C7 (amended): every entry returned by `get_meaning_tokens_from_batch` is
nonnegative provided the prompt length is at most the natural length (one plus
the non-filler count) of every row of the grid. -/
theorem C7_token_count_nonneg (generated_output : List (List Int))
    (input_size : Int)
    (h : ∀ row ∈ generated_output, input_size ≤ row_length row 2) :
    ∀ x ∈ get_meaning_tokens_from_batch generated_output input_size 2, 0 ≤ x := by
  intro x hx
  unfold get_meaning_tokens_from_batch at hx
  rcases List.mem_map.mp hx with ⟨row, hrow, rfl⟩
  have := h row hrow
  omega

/-- C7 witness: the amended bound applied to a concrete grid. -/
theorem C7_token_count_nonneg_witness :
    (∀ row ∈ [[5, 7, 2]], (1 : Int) ≤ row_length row 2) ∧
    ∀ x ∈ get_meaning_tokens_from_batch [[5, 7, 2]] 1 2, 0 ≤ x :=
  ⟨by decide, C7_token_count_nonneg [[5, 7, 2]] 1 (by decide)⟩

/-- C9: a negative inter-op or intra-op thread count raises the
incorrect-thread-count error before the corresponding torch setting is
applied (a negative inter-op count even before anything is applied, a
negative intra-op count after only the inter-op setting); a positive count
raises no error and applies the corresponding setting. -/
theorem C9_thread_validation :
    (∀ (n : Int) (intra : Option Int), n < 0 →
        set_thread_num (some n) intra =
          ([], some ("Incorrect thread count: " ++ toString n))) ∧
    (∀ (n : Int), n < 0 →
        set_thread_num none (some n) =
          ([], some ("Incorrect thread count: " ++ toString n))) ∧
    (∀ (m n : Int), 0 < m → n < 0 →
        set_thread_num (some m) (some n) =
          ([ThreadSetting.interop m], some ("Incorrect thread count: " ++ toString n))) ∧
    (∀ (m : Int), 0 < m →
        set_thread_num (some m) none = ([ThreadSetting.interop m], none)) ∧
    (∀ (n : Int), 0 < n →
        set_thread_num none (some n) = ([ThreadSetting.intraop n], none)) ∧
    (∀ (m n : Int), 0 < m → 0 < n →
        set_thread_num (some m) (some n) =
          ([ThreadSetting.interop m, ThreadSetting.intraop n], none)) := by
  refine ⟨?_, ?_, ?_, ?_, ?_, ?_⟩
  · intro n intra h
    have h0 : n ≠ 0 := by omega
    simp [set_thread_num, h, h0]
  · intro n h
    have h0 : n ≠ 0 := by omega
    simp [set_thread_num, h, h0]
  · intro m n hm hn
    have hm0 : m ≠ 0 := by omega
    have hmneg : ¬ m < 0 := by omega
    have hn0 : n ≠ 0 := by omega
    simp [set_thread_num, hm0, hmneg, hn, hn0]
  · intro m hm
    have hm0 : m ≠ 0 := by omega
    have hmneg : ¬ m < 0 := by omega
    simp [set_thread_num, hm0, hmneg]
  · intro n hn
    have hn0 : n ≠ 0 := by omega
    have hnneg : ¬ n < 0 := by omega
    simp [set_thread_num, hn0, hnneg]
  · intro m n hm hn
    have hm0 : m ≠ 0 := by omega
    have hmneg : ¬ m < 0 := by omega
    have hn0 : n ≠ 0 := by omega
    have hnneg : ¬ n < 0 := by omega
    simp [set_thread_num, hm0, hmneg, hn0, hnneg]

/-- C9 witness: concrete negative and positive thread counts. -/
theorem C9_thread_validation_witness :
    set_thread_num (some (-1)) (some 4) =
      ([], some ("Incorrect thread count: " ++ toString (-1 : Int))) ∧
    set_thread_num (some 3) (some 4) =
      ([ThreadSetting.interop 3, ThreadSetting.intraop 4], none) :=
  ⟨C9_thread_validation.1 (-1) (some 4) (by decide),
   C9_thread_validation.2.2.2.2.2 3 4 (by decide) (by decide)⟩

/-- With no time bound and a nonzero iteration budget the loop runs the
budget down: from a state with `i` iterations already done and enough fuel it
produces the `n - i` remaining samples. -/
theorem loop_go_count_bounded (iterTime : Nat → Nat) (n : Nat) :
    ∀ (fuel i now : Nat), i < n → n - i ≤ fuel →
      (loop_go iterTime 0 n fuel i now).length = n - i := by
  intro fuel
  induction fuel with
  | zero => intro i now hi hf; omega
  | succ f ih =>
      intro i now hi hf
      have hn : n ≠ 0 := by omega
      by_cases hstop : n ≤ i + 1
      · simp [loop_go, hn, hstop]
        omega
      · simp [loop_go, hn, hstop]
        rw [ih (i + 1) (now + max (iterTime i) 1) (by omega) (by omega)]
        omega

/-- C4: with iteration count 5 and duration 0 (no time bound) the benchmark
loop produces exactly 5 latency samples, and every run — any iteration count
including 0, any duration, any iteration durations — produces at least one
sample, because an iteration always runs before the deadline is checked. -/
theorem C4_loop_sample_counts :
    (∀ (iterTime : Nat → Nat), (loop_inference 5 0 iterTime).length = 5) ∧
    (∀ (num_iterations test_duration : Nat) (iterTime : Nat → Nat),
        1 ≤ (loop_inference num_iterations test_duration iterTime).length) := by
  constructor
  · intro f
    simpa [loop_inference] using
      loop_go_count_bounded f 5 6 0 0 (by omega) (by omega)
  · intro n d f
    simp [loop_inference, loop_go]

/-- C5: `prepare_output` raises the output-name error whenever the name list
is missing or empty, for every result value and every task type (recognized
or not) — the check precedes the task dispatch. -/
theorem C5_output_names_checked_first :
    ∀ (result : Val) (task_type : String),
      prepare_output result none task_type =
        Except.error "The number of output tensors does not match the number of corresponding output names" ∧
      prepare_output result (some []) task_type =
        Except.error "The number of output tensors does not match the number of corresponding output names" :=
  fun _ _ => ⟨rfl, rfl⟩

/-- Building positional inputs only performs slicing: its trace holds no
inference invocation. -/
theorem countInfer_build_positional_inputs (input_names : List String)
    (device : String) : ∀ (k : Nat),
    countInfer (build_positional_inputs input_names device k).2.1 = 0 := by
  induction input_names with
  | nil => intro k; rfl
  | cons n rest ih =>
      intro k
      simp [build_positional_inputs, countInfer, is_infer_event, List.filter]
      simpa [countInfer] using ih (k + 1)

/-- C6: for every task type a run can carry (the CLI choices) and iteration
count 1, the single-shot path records one latency sample computed from the
two clock reads that surround the branch, performs exactly one inference
invocation between those two reads (and none before), and returns a decoded
output. -/
theorem C6_single_shot_once (task_type : String) (input_names : List String)
    (device : String) (h : task_type ∈ cli_task_choices) :
    (inference_pytorch_single task_type input_names device).time_infer = [(0, 1)] ∧
    (inference_pytorch_single task_type input_names device).output ≠ Val.noneV ∧
    ∃ pre mid,
      (inference_pytorch_single task_type input_names device).events =
        pre ++ [Event.timeRead 0] ++ mid ++ [Event.timeRead 1] ∧
      countInfer pre = 0 ∧ countInfer mid = 1 := by
  simp only [cli_task_choices, List.mem_cons, List.not_mem_nil, or_false] at h
  rcases h with rfl | rfl | rfl | rfl | rfl | rfl | rfl | rfl | rfl
  · exact ⟨rfl, fun hc => Val.noConfusion hc,
      (build_positional_inputs input_names device 0).2.1,
      [Event.infer Val.modelV (build_positional_inputs input_names device 0).1 []],
      rfl, countInfer_build_positional_inputs input_names device 0, rfl⟩
  · exact ⟨rfl, fun hc => Val.noConfusion hc,
      (build_positional_inputs input_names device 0).2.1,
      [Event.infer Val.modelV (build_positional_inputs input_names device 0).1 []],
      rfl, countInfer_build_positional_inputs input_names device 0, rfl⟩
  · exact ⟨rfl, fun hc => Val.noConfusion hc, [],
      [Event.getSlice 0, Event.infer Val.modelV [] [("prompt", Val.slice 0)]],
      rfl, rfl, rfl⟩
  · exact ⟨rfl, fun hc => Val.noConfusion hc, [],
      [Event.getSlice 0, Event.infer Val.modelV [ner_tokenized device 0] []],
      rfl, rfl, rfl⟩
  · exact ⟨rfl, fun hc => Val.noConfusion hc,
      (build_positional_inputs input_names device 0).2.1,
      [Event.infer Val.modelV (build_positional_inputs input_names device 0).1 []],
      rfl, countInfer_build_positional_inputs input_names device 0, rfl⟩
  · exact ⟨rfl, fun hc => Val.noConfusion hc, [Event.getSlice 0],
      [Event.infer (Val.extV "causal_lm_base.generate") [] (lm_generate_kwargs device)],
      rfl, rfl, rfl⟩
  · exact ⟨rfl, fun hc => Val.noConfusion hc, [Event.getSlice 0],
      [Event.infer (Val.extV "gpt_2.batch_text_generation") [] (btg_kwargs device)],
      rfl, rfl, rfl⟩
  · exact ⟨rfl, fun hc => Val.noConfusion hc, [],
      [Event.getSlice 0,
       Event.infer (Val.methodV Val.modelV "translate_batch") [Val.slice 0] []],
      rfl, rfl, rfl⟩
  · exact ⟨rfl, fun hc => Val.noConfusion hc, [Event.getSlice 0],
      [Event.infer (Val.extV "speech_to_sequence_base.generate") [] (s2t_generate_kwargs device)],
      rfl, rfl, rfl⟩

/-- C6 witness: a concrete classification run with iteration count 1. -/
theorem C6_single_shot_once_witness :
    "classification" ∈ cli_task_choices ∧
    ((inference_pytorch_single "classification" ["data"] "cpu").time_infer = [(0, 1)] ∧
     (inference_pytorch_single "classification" ["data"] "cpu").output ≠ Val.noneV ∧
     ∃ pre mid,
       (inference_pytorch_single "classification" ["data"] "cpu").events =
         pre ++ [Event.timeRead 0] ++ mid ++ [Event.timeRead 1] ∧
       countInfer pre = 0 ∧ countInfer mid = 1) :=
  ⟨by decide, C6_single_shot_once "classification" ["data"] "cpu" (by decide)⟩

/-- C2 counterexample: for the unrecognized task string "unknown-task" the
engine does not fail with an unsupported-task error at input construction:
the single-shot path completes normally (output `None`, one latency sample,
no inference invocation, no error), and the looped path fails only at
invocation time, with the TypeError raised by positionally unpacking the
never-constructed (`None`) inputs. -/
theorem C2_counterexample :
    (inference_pytorch_single "unknown-task" ["data"] "cpu" =
      { output := Val.noneV, time_infer := [(0, 1)], num_tokens := [],
        audios_lengths := [], audio_sampling_rate := Val.noneV,
        events := [Event.timeRead 0, Event.timeRead 1] }) ∧
    (inference_iteration "cpu" ["data"] "unknown-task"
        Val.noneV Val.noneV (Val.intV 0) 0).1 = Except.error PyErr.typeError :=
  ⟨rfl, rfl⟩

/-- C2 (amended): for every task string outside the recognized CLI choices,
the engine raises no unsupported-task error at the input-construction
dispatch: the single-shot path returns output `None` with one latency sample
and an event trace containing no inference call, and an iteration of the
looped path fails only at the invocation step with a TypeError (from
unpacking `None` inputs), not with an unsupported-task error. -/
theorem C2_no_unsupported_task_error (task_type : String)
    (input_names : List String) (device : String)
    (h : task_type ∉ cli_task_choices) :
    (inference_pytorch_single task_type input_names device =
      { output := Val.noneV, time_infer := [(0, 1)], num_tokens := [],
        audios_lengths := [], audio_sampling_rate := Val.noneV,
        events := [Event.timeRead 0, Event.timeRead 1] }) ∧
    ∀ (tokenizer processor input_size : Val) (k : Nat),
      (inference_iteration device input_names task_type
          tokenizer processor input_size k).1 = Except.error PyErr.typeError := by
  simp only [cli_task_choices, List.mem_cons, List.not_mem_nil, or_false,
    not_or] at h
  obtain ⟨h1, h2, h3, h4, h5, h6, h7, h8, h9⟩ := h
  constructor
  · simp [inference_pytorch_single, h1, h2, h3, h4, h5, h6, h7, h8, h9]
  · intro tokenizer processor input_size k
    simp [inference_iteration, infer_slice, star_unpack, syncEvents,
      h1, h2, h3, h4, h5, h6, h7, h8, h9]

/-- C2 witness: the amended statement at the concrete task "unknown-task". -/
theorem C2_no_unsupported_task_error_witness :
    (inference_iteration "cpu" ["data"] "unknown-task"
        Val.noneV Val.noneV (Val.intV 0) 0).1 = Except.error PyErr.typeError :=
  (C2_no_unsupported_task_error "unknown-task" ["data"] "cpu" (by decide)).2
    Val.noneV Val.noneV (Val.intV 0) 0

/-- C3 counterexample: in the single-shot path the feedforward output is not
the raw result of the positional call `model(*inputs)`: it is that result
with a softmax applied along dimension 1 and moved to host memory. -/
theorem C3_counterexample :
    (inference_pytorch_single "feedforward" ["data"] "cpu").output ≠
      Val.call Val.modelV [Val.tensor (Val.field (Val.slice 0) "data") "cpu"] [] ∧
    (inference_pytorch_single "feedforward" ["data"] "cpu").output =
      Val.toDevice (Val.softmax
        (Val.call Val.modelV [Val.tensor (Val.field (Val.slice 0) "data") "cpu"] []) 1)
        "cpu" :=
  ⟨fun hc => Val.noConfusion hc, rfl⟩

/-- C3 (amended): in the single-shot path both the feedforward and the
classification task types apply the softmax transform along dimension 1 to
the positional call `model(*inputs)` and move the result to host memory; the
raw model output is returned for neither. -/
theorem C3_softmax_for_feedforward_too (task_type : String)
    (input_names : List String) (device : String)
    (h : task_type ∈ ["classification", "feedforward"]) :
    (inference_pytorch_single task_type input_names device).output =
      Val.toDevice (Val.softmax
        (Val.call Val.modelV (build_positional_inputs input_names device 0).1 []) 1)
        "cpu" := by
  simp only [List.mem_cons, List.not_mem_nil, or_false] at h
  rcases h with rfl | rfl
  · rfl
  · rfl

/-- C3 witness: the amended statement at the concrete feedforward task. -/
theorem C3_softmax_for_feedforward_too_witness :
    "feedforward" ∈ ["classification", "feedforward"] ∧
    (inference_pytorch_single "feedforward" ["data"] "cpu").output =
      Val.toDevice (Val.softmax
        (Val.call Val.modelV (build_positional_inputs ["data"] "cpu" 0).1 []) 1)
        "cpu" :=
  ⟨by decide, C3_softmax_for_feedforward_too "feedforward" ["data"] "cpu" (by decide)⟩

/-- C8: in `infer_slice` the named-entity-recognition call passes exactly the
single keyword argument `input_ids` (never a tokenizer keyword, whatever the
tokenizer), any other task type with a keyword-style call and a truthy
tokenizer gets `tokenizer=...` added, and a looped named-entity-recognition
iteration invokes the model with the tokenized input ids (placed on the
device) under the `input_ids` keyword. -/
theorem C8_tokenizer_kwarg_policy :
    (∀ (device : String) (inputs tokenizer : Val),
        (infer_slice device inputs Val.modelV (some "input_ids")
            "named-entity-recognition" tokenizer).2 =
          [Event.infer Val.modelV [] [("input_ids", inputs)]] ++ syncEvents device) ∧
    (∀ (device kwarg task_type : String) (inputs model tokenizer : Val),
        tokenizer.truthy = true → task_type ∉ ["named-entity-recognition"] →
        (infer_slice device inputs model (some kwarg) task_type tokenizer).2 =
          [Event.infer
              (if task_type ∈ ["text-translation"] then
                 Val.methodV model "translate_batch"
               else model)
              [] [(kwarg, inputs), ("tokenizer", tokenizer)]] ++ syncEvents device) ∧
    (∀ (device : String) (input_names : List String)
        (tokenizer processor input_size : Val) (k : Nat),
        (inference_iteration device input_names "named-entity-recognition"
            tokenizer processor input_size k).2.1 =
          [Event.getSlice k] ++ syncEvents device ++
            [Event.infer Val.modelV []
              [("input_ids",
                Val.toDevice (Val.field
                  (Val.call (Val.extV "bert_base_ner.tokenize") [tokenizer, Val.slice k] [])
                  "input_ids") device)]] ++ syncEvents device) := by
  refine ⟨?_, ?_, ?_⟩
  · intro device inputs tokenizer
    cases htok : tokenizer.truthy <;> simp [infer_slice, htok]
  · intro device kwarg task_type inputs model tokenizer htok htask
    simp only [List.mem_cons, List.not_mem_nil, or_false] at htask
    simp [infer_slice, htok, htask]
  · intro device input_names tokenizer processor input_size k
    cases htok : tokenizer.truthy <;>
      simp [inference_iteration, infer_slice, syncEvents, htok]

/-- C8 witness: a concrete named-entity-recognition call and a concrete
text-generation call. -/
theorem C8_tokenizer_kwarg_policy_witness :
    ((infer_slice "cpu" (Val.slice 0) Val.modelV (some "input_ids")
        "named-entity-recognition" (Val.extV "tok")).2 =
      [Event.infer Val.modelV [] [("input_ids", Val.slice 0)]] ++ syncEvents "cpu") ∧
    ((infer_slice "cpu" (Val.slice 0) Val.modelV (some "inputs")
        "text-generation" (Val.extV "tok")).2 =
      [Event.infer
          (if "text-generation" ∈ ["text-translation"] then
             Val.methodV Val.modelV "translate_batch"
           else Val.modelV)
          [] [("inputs", Val.slice 0), ("tokenizer", Val.extV "tok")]] ++
        syncEvents "cpu") :=
  ⟨C8_tokenizer_kwarg_policy.1 "cpu" (Val.slice 0) (Val.extV "tok"),
   C8_tokenizer_kwarg_policy.2.1 "cpu" "inputs" "text-generation"
     (Val.slice 0) Val.modelV (Val.extV "tok") rfl (by decide)⟩

/-- The input-shape check holds exactly when the string splits into three
whitespace-separated tokens all passing the integer-value check. -/
theorem input_shape_is_correct_iff (f : String → Bool) (s : String) :
    input_shape_is_correct f s = true ↔
      (python_whitespace_split s).length = 3 ∧
        (python_whitespace_split s).all f = true := by
  unfold input_shape_is_correct
  by_cases h3 : (python_whitespace_split s).length = 3 <;> simp [h3]

/-- C10: for every non-empty input-shape string (all other parameters
absent), the `TensorFlowParameters` constructor stores the string if and only
if it splits on whitespace into exactly 3 tokens each passing the
integer-value check, and otherwise raises the input-shape `ValueError` so
that no parameters object is produced. -/
theorem C10_input_shape_validation (ck : FrameworkChecks) (s : String)
    (hs : s ≠ "") :
    (TensorFlowParameters.init ck none none none (some s)
        none none none none none none none =
        Except.ok { tf_params_empty with input_shape := some s } ↔
      (python_whitespace_split s).length = 3 ∧
        (python_whitespace_split s).all ck.int_value_is_correct = true) ∧
    (¬ ((python_whitespace_split s).length = 3 ∧
          (python_whitespace_split s).all ck.int_value_is_correct = true) →
      TensorFlowParameters.init ck none none none (some s)
          none none none none none none none =
        Except.error "Input shape can only take values: list of 3 integer elements greater than zero.") := by
  cases hc : input_shape_is_correct ck.int_value_is_correct s
  · constructor
    · constructor
      · intro hok
        exfalso
        simp [TensorFlowParameters.init, validated, unvalidated, hc, Except.bind] at hok
      · intro hcond
        exact absurd ((input_shape_is_correct_iff ck.int_value_is_correct s).mpr hcond)
          (by simp [hc])
    · intro _
      simp [TensorFlowParameters.init, validated, unvalidated, hc, Except.bind]
  · constructor
    · constructor
      · intro _
        exact (input_shape_is_correct_iff ck.int_value_is_correct s).mp hc
      · intro _
        simp [TensorFlowParameters.init, validated, unvalidated, hc, Except.bind]
    · intro hneg
      exact absurd ((input_shape_is_correct_iff ck.int_value_is_correct s).mp hc) hneg

/-- C10 witness: a concrete valid shape string with a digits-only
integer-value check. -/
theorem C10_input_shape_validation_witness :
    ("1 2 3" ≠ "") ∧
    (TensorFlowParameters.init
        { channel_swap_is_correct := fun _ => true,
          mean_is_correct := fun _ => true,
          float_value_is_correct := fun _ => true,
          int_value_is_correct := fun t => t.all Char.isDigit }
        none none none (some "1 2 3") none none none none none none none =
        Except.ok { tf_params_empty with input_shape := some "1 2 3" } ↔
      (python_whitespace_split "1 2 3").length = 3 ∧
        (python_whitespace_split "1 2 3").all (fun t => t.all Char.isDigit) = true) :=
  ⟨by decide,
   (C10_input_shape_validation
      { channel_swap_is_correct := fun _ => true,
        mean_is_correct := fun _ => true,
        float_value_is_correct := fun _ => true,
        int_value_is_correct := fun t => t.all Char.isDigit }
      "1 2 3" (by decide)).1⟩

end DLBench
